import Mathlib

/-!
# Verification of the REBOUNDx core parameter/effect subsystem

Shallow embedding of `core.c` (the generic parameter-attachment and
effect-dispatch subsystem of REBOUNDx, version line 2.12.0).  Pointers are
modelled as `Nat` addresses (0 = NULL), the process allocator as an explicit
address stream with a live-allocation list, and the singly linked parameter
chains as Lean lists.  Undefined behaviour (dereferencing a sentinel word or
a null head pointer) is modelled by an explicit `CResult.ub` outcome, and
`exit(1)` by `CResult.exited`.

The repository snapshot does not contain `core.h` or REBOUND's `rebound.h`;
the few facts taken from them (the sentinel enum values, the one-slot layout
of the `ap` field, and the string hash) are modelled from the spec and marked
`Modelled from the spec:` in their doc comments.  Everything else is a direct
translation of `core.c`.
-/

/-- Modelled from the spec: REBOUND's string-hashing primitive `reb_hash`
(`rebound.h` is not part of this repository).  The spec only requires a
fixed-width (32-bit) hash of a string key; we use a djb2-style fold over the
characters, reduced mod 2^32. -/
def reb_hash (s : String) : Nat :=
  s.data.foldl (fun h c => (h * 31 + c.toNat) % 4294967296) 5381

/-- Modelled from the spec: `core.h` (absent from the snapshot) defines
`enum rebx_object_type`.  The spec fixes only that the sentinels form a small
set of reserved non-address word values and the loop in
`rebx_validate_ap_address` requires `REBX_TYPE_EFFECT <= REBX_TYPE_PARTICLE`;
we use the consecutive nonzero words 1 and 2. -/
def REBX_TYPE_EFFECT : Nat := 1

/-- Modelled from the spec: see `REBX_TYPE_EFFECT`. -/
def REBX_TYPE_PARTICLE : Nat := 2

/-- The collision test of `rebx_validate_ap_address` (core.c lines 254-262 and
274-278): `for(int j=REBX_TYPE_EFFECT; j<=REBX_TYPE_PARTICLE; j++)` comparing
the candidate address against each reserved sentinel word. -/
def collides (a : Nat) : Bool :=
  (List.range' REBX_TYPE_EFFECT (REBX_TYPE_PARTICLE - REBX_TYPE_EFFECT + 1)).any
    (fun j => a == j)

/-- The process allocator: `stream` enumerates the addresses successive
`malloc` calls return (arbitrary, as in C), `idx` counts the calls made, and
`live` is the multiset of currently allocated (not yet freed) addresses. -/
structure AllocState where
  stream : Nat → Nat
  idx : Nat
  live : List Nat

/-- One `malloc` call: hands out the next address of the stream and records
it as live. -/
def malloc (al : AllocState) : Nat × AllocState :=
  (al.stream al.idx,
   { al with idx := al.idx + 1, live := al.stream al.idx :: al.live })

/-- One `free(a)` call: removes one occurrence of `a` from the live list. -/
def mfree (al : AllocState) (a : Nat) : AllocState :=
  { al with live := al.live.erase a }

/-- Outcome of `rebx_validate_ap_address`. -/
inductive ValidateResult where
  /-- A node address was returned to the caller. -/
  | ok (addr : Nat)
  /-- `exit(1)` was reached (core.c lines 284-287). -/
  | fatalExit
  /-- The retry loop exhausted all six iterations without a break: `i == 6`,
  the `if (i==5)` test is false, and the function returns `address[6]`, a
  read past the end of the five-element `address` array (indeterminate). -/
  | oobGarbage
  deriving DecidableEq

/-- The retry loop of `rebx_validate_ap_address` (core.c lines 269-291):
`for(i=0; i<=5; i++)` allocates `address[i]`, breaks at the first
non-colliding address, then `if (i==5) exit(1)`, else frees the colliding
prefix `address[0..i-1]` and returns `address[i]`.  `remaining` counts the
loop iterations left (started at 6), `i` is the loop index, `acc` the
colliding addresses allocated so far in order.  Note the C loop bound
`i<=5` itself writes `address[5]` out of bounds of the five-element array;
we model that store as benign, which only matters for the two abnormal
outcomes already reported as such. -/
def rebx_validate_retry : Nat → Nat → List Nat → AllocState →
    ValidateResult × AllocState
  | 0, _, acc, al => (ValidateResult.oobGarbage, acc.foldl mfree al)
  | remaining + 1, i, acc, al =>
    let m := malloc al
    if collides m.1 then
      rebx_validate_retry remaining (i + 1) (acc ++ [m.1]) m.2
    else if i == 5 then
      (ValidateResult.fatalExit, m.2)
    else
      (ValidateResult.ok m.1, acc.foldl mfree m.2)

/-- `rebx_validate_ap_address` (core.c lines 252-292): if the fresh node
address does not collide with any sentinel word it is returned unchanged;
otherwise it is freed and the bounded retry loop runs. -/
def rebx_validate_ap_address (newparam : Nat) (al : AllocState) :
    ValidateResult × AllocState :=
  if collides newparam then
    rebx_validate_retry 6 0 [] (mfree al newparam)
  else
    (ValidateResult.ok newparam, al)

/-- `enum rebx_param_type`.  Modelled from the spec: `core.h` is absent; the
spec fixes the closed set of value kinds as real-number and integer. -/
inductive RebxParamType where
  | double
  | int
  deriving DecidableEq

/-- Element size in bytes used by the `malloc` calls of `rebx_add_param_`
(core.c lines 356-367): `sizeof(double)` and `sizeof(int)` on the usual
LP64/ILP32 targets. -/
def sizeofElem : RebxParamType → Nat
  | RebxParamType.double => 8
  | RebxParamType.int => 4

/-- `struct rebx_param` (one typed parameter node), together with its own
address and the addresses of its two auxiliary allocations.  `contents` holds
the element values currently stored in the backing storage (one abstract
machine word per element; `malloc` returns uninitialized storage, modelled as
zeros). -/
structure RebxParam where
  addr : Nat
  hash : Nat
  param_type : RebxParamType
  ndim : Nat
  shape : List Nat
  shapeAddr : Nat
  size : Nat
  contentsAddr : Nat
  contents : List Nat
  contentsBytes : Nat
  deriving DecidableEq

/-- Modelled from the spec: the `ap` slot of an attachable object.  Per spec
sections 3 and 4.2 the store head is a single word slot that doubles as the
object-kind tag: a freshly constructed Effect holds the sentinel word
`REBX_TYPE_EFFECT` in it, and once a genuine node heads the store the slot
holds that node's address (0 when the chain is empty).  `chain l` is the
well-formed linked chain reachable from a genuine head pointer. -/
inductive ObjStore where
  /-- The slot still holds the Effect kind sentinel (fresh effect, no
  parameter ever attached). -/
  | sentinelEffect
  /-- The slot holds a genuine list head (the particle case, and any object
  after a node has been linked in). -/
  | chain (l : List RebxParam)
  deriving DecidableEq

/-- The raw word currently stored in the object's `ap` slot. -/
def slotWord : ObjStore → Nat
  | ObjStore.sentinelEffect => REBX_TYPE_EFFECT
  | ObjStore.chain [] => 0
  | ObjStore.chain (n :: _) => n.addr

/-- `enum rebx_object_type` as a classification result. -/
inductive RebxObjectType where
  | effect
  | particle
  deriving DecidableEq

/-- `rebx_get_object_type` (core.c lines 225-233): the raw `ap` word is
compared against the `REBX_TYPE_EFFECT` sentinel; anything else is classified
as a particle. -/
def rebx_get_object_type (o : ObjStore) : RebxObjectType :=
  if slotWord o == REBX_TYPE_EFFECT then RebxObjectType.effect
  else RebxObjectType.particle

/-- Outcome of a C operation that can dereference an invalid pointer or
terminate the process. -/
inductive CResult (α : Type) where
  /-- Undefined behaviour was reached (an invalid pointer was dereferenced). -/
  | ub
  /-- `exit(1)` was reached. -/
  | exited
  /-- Normal completion. -/
  | ok (a : α)
  deriving DecidableEq

/-- `rebx_get_param_node` (core.c lines 414-444): loads the object's `ap`
slot (both switch branches read the same one-slot word) and scans the chain
for the first node whose hash equals `reb_hash(param_name)`.  On a fresh
effect the slot holds the sentinel word, which the scan dereferences as a
node pointer: undefined behaviour. -/
def rebx_get_param_node (o : ObjStore) (param_name : String) :
    CResult (Option RebxParam) :=
  match o with
  | ObjStore.sentinelEffect => CResult.ub
  | ObjStore.chain l =>
    CResult.ok (l.find? (fun n => n.hash == reb_hash param_name))

/-- `rebx_get_param` (core.c lines 405-411): returns the node's `contents`
pointer, or NULL (0, modelled as `none`) when the node is not found. -/
def rebx_get_param (o : ObjStore) (param_name : String) :
    CResult (Option Nat) :=
  match rebx_get_param_node o param_name with
  | CResult.ub => CResult.ub
  | CResult.exited => CResult.exited
  | CResult.ok none => CResult.ok none
  | CResult.ok (some n) => CResult.ok (some n.contentsAddr)

/-- The interior scan of `rebx_remove_param` (core.c lines 324-330):
`while(current->next != NULL)` unlinks the first node after `current` whose
hash matches.  Returns the flag the C function returns together with the
chain after `current`. -/
def removeScan (h : Nat) : List RebxParam → Bool × List RebxParam
  | [] => (false, [])
  | n :: t =>
    if n.hash == h then (true, t)
    else
      let r := removeScan h t
      (r.1, n :: r.2)

/-- `rebx_remove_param` (core.c lines 297-332): hashes the name, loads the
store head and tests `current->hash` without a null check, so an empty store
(head NULL) and a fresh effect (head = sentinel word) both dereference an
invalid pointer.  Otherwise the head is unlinked on a match, else the
interior scan runs. -/
def rebx_remove_param (o : ObjStore) (param_name : String) :
    CResult (Bool × ObjStore) :=
  match o with
  | ObjStore.sentinelEffect => CResult.ub
  | ObjStore.chain [] => CResult.ub
  | ObjStore.chain (n :: rest) =>
    if n.hash == reb_hash param_name then
      CResult.ok (true, ObjStore.chain rest)
    else
      let r := removeScan (reb_hash param_name) rest
      CResult.ok (r.1, ObjStore.chain (n :: r.2))

/-- The element-count computation of `rebx_add_param_` (core.c lines
351-355): `size = 1; for(i=0;i<ndim;i++) size *= shape[i];`. -/
def computeSize (shape : List Nat) : Nat :=
  shape.foldl (fun s x => s * x) 1

/-- What `rebx_add_param_` leaves behind on normal return: the returned
`void*` (the new node's contents pointer, or `none` for NULL), whether
`reb_error` was invoked on the host diagnostic channel, the object's store,
and the allocator. -/
structure AddParamOut where
  ret : Option Nat
  errorReported : Bool
  store : ObjStore
  alloc : AllocState

/-- The allocation-and-link tail of `rebx_add_param_` (core.c lines 342-385),
reached when the duplicate check passed: `malloc` the node, validate its
address against the sentinel words, `malloc` and fill the shape array,
compute the element count, `malloc` the backing storage of
`size * sizeof(kind)` bytes, and prepend the node to the chain headed in the
object's `ap` slot (both switch branches update the same one-slot word).
Note: no call to `rebx_add_param_to_be_freed` occurs anywhere in this
function. -/
def rebx_add_param_create (l : List RebxParam) (param_name : String)
    (ty : RebxParamType) (shape : List Nat) (al : AllocState) :
    CResult AddParamOut :=
  let m1 := malloc al
  match rebx_validate_ap_address m1.1 m1.2 with
  | (ValidateResult.fatalExit, _) => CResult.exited
  | (ValidateResult.oobGarbage, _) => CResult.ub
  | (ValidateResult.ok a, al1) =>
    let m2 := malloc al1
    let m3 := malloc m2.2
    let size := computeSize shape
    let node : RebxParam :=
      { addr := a
        hash := reb_hash param_name
        param_type := ty
        ndim := shape.length
        shape := shape
        shapeAddr := m2.1
        size := size
        contentsAddr := m3.1
        contents := List.replicate size 0
        contentsBytes := size * sizeofElem ty }
    CResult.ok
      { ret := some m3.1
        errorReported := false
        store := ObjStore.chain (node :: l)
        alloc := m3.2 }

/-- `rebx_add_param_` (core.c lines 334-385): first the duplicate check
`ptr = rebx_get_param(object, param_name); if (ptr != NULL)` reports the
AlreadyExists configuration error through `reb_error` and returns NULL
leaving everything unchanged; otherwise the allocation-and-link tail runs.
On a fresh effect the duplicate check itself dereferences the sentinel
word: undefined behaviour. -/
def rebx_add_param_ (o : ObjStore) (param_name : String)
    (ty : RebxParamType) (shape : List Nat) (al : AllocState) :
    CResult AddParamOut :=
  match o with
  | ObjStore.sentinelEffect => CResult.ub
  | ObjStore.chain l =>
    match rebx_get_param (ObjStore.chain l) param_name with
    | CResult.ub => CResult.ub
    | CResult.exited => CResult.exited
    | CResult.ok (some c) =>
      if c ≠ 0 then
        CResult.ok
          { ret := none
            errorReported := true
            store := ObjStore.chain l
            alloc := al }
      else rebx_add_param_create l param_name ty shape al
    | CResult.ok none => rebx_add_param_create l param_name ty shape al

/-- `rebx_add_param` (core.c lines 387-391): scalar convenience shape. -/
def rebx_add_param (o : ObjStore) (param_name : String)
    (ty : RebxParamType) (al : AllocState) : CResult AddParamOut :=
  rebx_add_param_ o param_name ty [1] al

/-- `rebx_add_param1d` (core.c lines 393-397). -/
def rebx_add_param1d (o : ObjStore) (param_name : String)
    (ty : RebxParamType) (length : Nat) (al : AllocState) :
    CResult AddParamOut :=
  rebx_add_param_ o param_name ty [length] al

/-- `rebx_add_param2d` (core.c lines 399-403). -/
def rebx_add_param2d (o : ObjStore) (param_name : String)
    (ty : RebxParamType) (ncols nrows : Nat) (al : AllocState) :
    CResult AddParamOut :=
  rebx_add_param_ o param_name ty [ncols, nrows] al

/-- The caller writing element values through the storage handle returned by
`rebx_add_param_`: the handle is the contents pointer of some node, and the
write replaces the element values of the blob at that address. -/
def writeThroughHandle (o : ObjStore) (handle : Nat) (vals : List Nat) :
    ObjStore :=
  match o with
  | ObjStore.sentinelEffect => ObjStore.sentinelEffect
  | ObjStore.chain l =>
    ObjStore.chain
      (l.map (fun n =>
        if n.contentsAddr == handle then { n with contents := vals } else n))

/-- `struct rebx_effect` (declared in the absent `core.h`; field set as used
throughout core.c): name hash, the one-slot `ap` store head, the two optional
per-step callbacks, and (via the registry list) the `next` link.  Callbacks
are modelled as state transformers on an abstract simulation payload `σ`. -/
structure RebxEffect (σ : Type) where
  hash : Nat
  store : ObjStore
  force : Option (σ → σ)
  ptm : Option (σ → σ)

/-- `struct rebx_extras`: the effect registry (list order = pointer chain
order from `rebx->effects`) and the allocation ledger `params_to_be_freed`
(each entry records a parameter node's address and its contents address, the
two pointers `rebx_free_params` frees through it). -/
structure RebxExtras (σ : Type) where
  effects : List (RebxEffect σ)
  params_to_be_freed : List (Nat × Nat)

/-- The host `struct reb_simulation` as the core uses it: the two per-step
callback slots (modelled as installed/empty flags), the velocity-dependence
flag, the `reb_error` diagnostic channel (modelled as a reported flag), the
particle array (only their `ap` stores matter here), and the extras slot. -/
structure RebSim (σ : Type) where
  additional_forces : Bool
  post_timestep_modifications : Bool
  force_is_velocity_dependent : Bool
  errorReported : Bool
  particles : List ObjStore
  extras : RebxExtras σ

/-- `rebx_add_effect` (core.c lines 132-148): allocates an effect with null
callbacks, prepends it to the registry, then casts it to a particle and
stores the `REBX_TYPE_EFFECT` sentinel in its `ap` slot. -/
def rebx_add_effect (rebx : RebxExtras σ) (name : String) :
    RebxExtras σ × RebxEffect σ :=
  let effect : RebxEffect σ :=
    { hash := reb_hash name
      store := ObjStore.sentinelEffect
      force := none
      ptm := none }
  ({ rebx with effects := effect :: rebx.effects }, effect)

/-- `rebx_add` (core.c lines 150-195): registers the effect by name.  The
entire builtin-name resolution chain (hash comparisons wiring `rebx_gr`,
`rebx_modify_orbits_direct`, ..., setting `force_is_velocity_dependent`, and
the `reb_error` for unrecognized names) is commented out in this revision, so
the function only registers an unwired effect and reports nothing. -/
def rebx_add (sim : RebSim σ) (name : String) : RebSim σ × RebxEffect σ :=
  let r := rebx_add_effect sim.extras name
  ({ sim with extras := r.1 }, r.2)

/-- `rebx_add_custom_force` (core.c lines 197-205). -/
def rebx_add_custom_force (sim : RebSim σ) (name : String) (f : σ → σ)
    (force_is_velocity_dependent : Bool) : RebSim σ × RebxEffect σ :=
  let r := rebx_add_effect sim.extras name
  let e := { r.2 with force := some f }
  let ex : RebxExtras σ :=
    { r.1 with effects := e :: r.1.effects.tail }
  ({ sim with
      extras := ex
      force_is_velocity_dependent :=
        sim.force_is_velocity_dependent || force_is_velocity_dependent }, e)

/-- `rebx_add_custom_post_timestep_modification` (core.c lines 207-211). -/
def rebx_add_custom_post_timestep_modification (sim : RebSim σ)
    (name : String) (p : σ → σ) : RebSim σ × RebxEffect σ :=
  let r := rebx_add_effect sim.extras name
  let e := { r.2 with ptm := some p }
  let ex : RebxExtras σ :=
    { r.1 with effects := e :: r.1.effects.tail }
  ({ sim with extras := ex }, e)

/-- The caller populating the callbacks of a just-registered effect through
the reference `rebx_add_effect` returned; since registration prepends, that
reference is the registry head. -/
def populateCallbacks (rebx : RebxExtras σ) (f p : Option (σ → σ)) :
    RebxExtras σ :=
  match rebx.effects with
  | [] => rebx
  | e :: rest =>
    { rebx with effects := { e with force := f, ptm := p } :: rest }

/-- `rebx_forces` (core.c lines 106-115): walks the registry from the head,
invoking each present force callback in chain order. -/
def rebx_forces (rebx : RebxExtras σ) (sim : σ) : σ :=
  rebx.effects.foldl
    (fun s e => match e.force with | some f => f s | none => s) sim

/-- `rebx_post_timestep_modifications` (core.c lines 117-126): walks the
registry from the head, invoking each present ptm callback in chain order. -/
def rebx_post_timestep_modifications (rebx : RebxExtras σ) (sim : σ) : σ :=
  rebx.effects.foldl
    (fun s e => match e.ptm with | some p => p s | none => s) sim

/-- `rebx_remove_from_simulation` (core.c lines 68-71): clears the two
per-step callback slots of the host simulation and nothing else. -/
def rebx_remove_from_simulation (sim : RebSim σ) : RebSim σ :=
  { sim with additional_forces := false, post_timestep_modifications := false }

/-- `rebx_add_param_to_be_freed` (core.c lines 213-219): prepends a ledger
entry for the given node.  Defined here because it exists in core.c, but no
function of this revision ever calls it. -/
def rebx_add_param_to_be_freed (rebx : RebxExtras σ) (nodeAddr contentsAddr : Nat) :
    RebxExtras σ :=
  { rebx with
      params_to_be_freed := (nodeAddr, contentsAddr) :: rebx.params_to_be_freed }

/-- `rebx_free_params` (core.c lines 79-89): walks `params_to_be_freed` from
the head, freeing each recorded node's contents and then the node itself
(the ledger entries themselves are also freed; they are not separately
tracked here). -/
def rebx_free_params (rebx : RebxExtras σ) (al : AllocState) : AllocState :=
  rebx.params_to_be_freed.foldl
    (fun a e => mfree (mfree a e.2) e.1) al

/-- A traced registration for the dispatch-order property: register an
effect by name and populate (through the returned reference) those of its
callbacks that are present with a callback appending the effect's own name
hash to the shared trace. -/
def registerTraced (rebx : RebxExtras (List Nat)) (r : String × Bool × Bool) :
    RebxExtras (List Nat) :=
  populateCallbacks (rebx_add_effect rebx r.1).1
    (if r.2.1 then some (fun tr => tr ++ [reb_hash r.1]) else none)
    (if r.2.2 then some (fun tr => tr ++ [reb_hash r.1]) else none)

/-- Register a whole list of traced effects, in list order, starting from an
empty extras state. -/
def registerAllTraced (regs : List (String × Bool × Bool)) :
    RebxExtras (List Nat) :=
  regs.foldl registerTraced { effects := [], params_to_be_freed := [] }

/-- A traced effect record: what `registerTraced` leaves in the registry. -/
def tracedEffect (r : String × Bool × Bool) : RebxEffect (List Nat) :=
  { hash := reb_hash r.1
    store := ObjStore.sentinelEffect
    force := if r.2.1 then some (fun tr => tr ++ [reb_hash r.1]) else none
    ptm := if r.2.2 then some (fun tr => tr ++ [reb_hash r.1]) else none }

/-- Fixture: an empty extras state over a trivial payload. -/
def extrasU : RebxExtras Unit := { effects := [], params_to_be_freed := [] }

/-- Fixture: a freshly initialized host simulation (hooks installed, no
velocity dependence, no error reported, no particles). -/
def simU : RebSim Unit :=
  { additional_forces := true
    post_timestep_modifications := true
    force_is_velocity_dependent := false
    errorReported := false
    particles := []
    extras := extrasU }

/-- Fixture: an allocator handing out the fresh addresses 100, 101, 102, .... -/
def alloc100 : AllocState := { stream := fun i => 100 + i, idx := 0, live := [] }

/-- Fixture: an allocator handing out the fresh addresses 10, 11, 12, .... -/
def alloc10 : AllocState := { stream := fun i => i + 10, idx := 0, live := [] }

/-- Fixture: an allocator whose first five addresses collide with a sentinel
word and whose sixth is the valid address 1000. -/
def allocCollideThenOk : AllocState :=
  { stream := fun i => if i < 5 then 1 else 1000, idx := 0, live := [] }

/-- Fixture: an allocator all of whose addresses collide with a sentinel. -/
def allocAllCollide : AllocState := { stream := fun _ => 2, idx := 0, live := [] }

/-- Fixture: an allocator with two colliding addresses followed by the valid
address 50. -/
def allocRetryOk : AllocState :=
  { stream := fun i => if i < 2 then 1 else 50, idx := 0, live := [] }

/-- Fixture: a scalar double parameter node at address 100 named "c". -/
def paramNode100 : RebxParam :=
  { addr := 100
    hash := reb_hash "c"
    param_type := RebxParamType.double
    ndim := 1
    shape := [1]
    shapeAddr := 101
    size := 1
    contentsAddr := 102
    contents := [0]
    contentsBytes := 8 }

/-- Fixture: a two-element int parameter node at address 300 named "q". -/
def paramNode300 : RebxParam :=
  { addr := 300
    hash := reb_hash "q"
    param_type := RebxParamType.int
    ndim := 1
    shape := [2]
    shapeAddr := 301
    size := 2
    contentsAddr := 302
    contents := [0, 0]
    contentsBytes := 8 }

/-- The node value the allocation-and-link tail of `rebx_add_param_` builds
when the allocator's next address passes validation on its fast path: the
node lives at the first fresh address, the shape array at the second, the
backing storage at the third. -/
def mkNode (name : String) (ty : RebxParamType) (sh : List Nat)
    (al : AllocState) : RebxParam :=
  { addr := al.stream al.idx
    hash := reb_hash name
    param_type := ty
    ndim := sh.length
    shape := sh
    shapeAddr := al.stream (al.idx + 1)
    size := computeSize sh
    contentsAddr := al.stream (al.idx + 1 + 1)
    contents := List.replicate (computeSize sh) 0
    contentsBytes := computeSize sh * sizeofElem ty }

/-- The allocator state after the three `malloc` calls of a successful
attach (node, shape array, backing storage). -/
def attachedAlloc (al : AllocState) : AllocState :=
  { stream := al.stream
    idx := al.idx + 1 + 1 + 1
    live := al.stream (al.idx + 1 + 1) :: al.stream (al.idx + 1)
      :: al.stream al.idx :: al.live }

/-- The full outcome of a successful attach of a fresh name on a store with
chain `l`. -/
def attachedOut (l : List RebxParam) (name : String) (ty : RebxParamType)
    (sh : List Nat) (al : AllocState) : AddParamOut :=
  { ret := some (mkNode name ty sh al).contentsAddr
    errorReported := false
    store := ObjStore.chain (mkNode name ty sh al :: l)
    alloc := attachedAlloc al }

theorem collides_reduce (a : Nat) :
    collides a = ((a == 1) || ((a == 2) || false)) := rfl

theorem collides_eq_false_of_gt (a : Nat) (h : 2 < a) : collides a = false := by
  rw [collides_reduce]
  simp only [Bool.or_false, Bool.or_eq_false_iff, beq_eq_false_iff_ne, ne_eq]
  omega

theorem beq_effect_eq_false_of_not_collides (a : Nat)
    (h : collides a = false) : (a == REBX_TYPE_EFFECT) = false := by
  rw [collides_reduce] at h
  simp only [Bool.or_false, Bool.or_eq_false_iff] at h
  simpa [REBX_TYPE_EFFECT] using h.1

theorem find?_hash_eq_none (l : List RebxParam) (h : Nat)
    (hl : ∀ n ∈ l, n.hash ≠ h) :
    l.find? (fun n => n.hash == h) = none := by
  rw [List.find?_eq_none]
  intro n hn
  simpa using hl n hn

theorem registerTraced_effects (ex : RebxExtras (List Nat))
    (r : String × Bool × Bool) :
    (registerTraced ex r).effects = tracedEffect r :: ex.effects := rfl

theorem registerTraced_go (regs : List (String × Bool × Bool))
    (ex : RebxExtras (List Nat)) :
    (regs.foldl registerTraced ex).effects
      = regs.reverse.map tracedEffect ++ ex.effects := by
  induction regs generalizing ex with
  | nil => simp
  | cons r rs ih =>
    simp [List.foldl_cons, ih, registerTraced_effects, List.reverse_cons,
      List.map_append, List.append_assoc]

theorem registerAllTraced_effects (regs : List (String × Bool × Bool)) :
    (registerAllTraced regs).effects = regs.reverse.map tracedEffect := by
  have := registerTraced_go regs { effects := [], params_to_be_freed := [] }
  simpa [registerAllTraced] using this

theorem forces_traced_go (rs : List (String × Bool × Bool)) (acc : List Nat) :
    rebx_forces { effects := rs.map tracedEffect, params_to_be_freed := [] } acc
      = acc ++ (rs.filter (fun r => r.2.1)).map (fun r => reb_hash r.1) := by
  induction rs generalizing acc with
  | nil => simp [rebx_forces]
  | cons r rs ih =>
    simp only [rebx_forces, List.map_cons, List.foldl_cons] at ih ⊢
    cases hb : r.2.1 with
    | false => simp [tracedEffect, hb, ih, List.filter_cons]
    | true => simp [tracedEffect, hb, ih, List.filter_cons, List.append_assoc]

theorem ptm_traced_go (rs : List (String × Bool × Bool)) (acc : List Nat) :
    rebx_post_timestep_modifications
        { effects := rs.map tracedEffect, params_to_be_freed := [] } acc
      = acc ++ (rs.filter (fun r => r.2.2)).map (fun r => reb_hash r.1) := by
  induction rs generalizing acc with
  | nil => simp [rebx_post_timestep_modifications]
  | cons r rs ih =>
    simp only [rebx_post_timestep_modifications, List.map_cons,
      List.foldl_cons] at ih ⊢
    cases hb : r.2.2 with
    | false => simp [tracedEffect, hb, ih, List.filter_cons]
    | true => simp [tracedEffect, hb, ih, List.filter_cons, List.append_assoc]

/-- C1 (amended): effects registered in order E1, ..., En are dispatched by
`rebx_forces` and `rebx_post_timestep_modifications` in REVERSE registration
order (the registry is a prepend list walked from its head), each pass
skipping effects whose corresponding callback is null. -/
theorem C1_dispatch_reverse_registration_order
    (regs : List (String × Bool × Bool)) :
    rebx_forces (registerAllTraced regs) []
      = (regs.reverse.filter (fun r => r.2.1)).map (fun r => reb_hash r.1) ∧
    rebx_post_timestep_modifications (registerAllTraced regs) []
      = (regs.reverse.filter (fun r => r.2.2)).map (fun r => reb_hash r.1) := by
  have hf : rebx_forces (registerAllTraced regs) []
      = rebx_forces
          { effects := regs.reverse.map tracedEffect,
            params_to_be_freed := [] } [] := by
    unfold rebx_forces
    rw [registerAllTraced_effects]
  have hp : rebx_post_timestep_modifications (registerAllTraced regs) []
      = rebx_post_timestep_modifications
          { effects := regs.reverse.map tracedEffect,
            params_to_be_freed := [] } [] := by
    unfold rebx_post_timestep_modifications
    rw [registerAllTraced_effects]
  constructor
  · rw [hf]
    simpa using forces_traced_go regs.reverse []
  · rw [hp]
    simpa using ptm_traced_go regs.reverse []

/-- C1 (counterexample): three effects registered in order E1, E2, E3, each
with both callbacks present and appending its own name hash, produce the
trace in reverse registration order, not in registration order, under both
dispatch passes. -/
theorem C1_counterexample_three_effects :
    rebx_forces
        (registerAllTraced [("E1", true, true), ("E2", true, true),
          ("E3", true, true)]) []
      = [reb_hash "E3", reb_hash "E2", reb_hash "E1"] ∧
    rebx_forces
        (registerAllTraced [("E1", true, true), ("E2", true, true),
          ("E3", true, true)]) []
      ≠ [reb_hash "E1", reb_hash "E2", reb_hash "E3"] ∧
    rebx_post_timestep_modifications
        (registerAllTraced [("E1", true, true), ("E2", true, true),
          ("E3", true, true)]) []
      ≠ [reb_hash "E1", reb_hash "E2", reb_hash "E3"] := by
  refine ⟨by decide, by decide, by decide⟩

/-- C9: `rebx_remove_from_simulation` clears both per-step callback slots of
the host simulation and changes nothing else: the effect registry, the
allocation ledger, every particle's parameter store, the velocity-dependence
flag and the diagnostic channel are left untouched (and nothing is freed:
the function performs no deallocation at all). -/
theorem C9_remove_from_simulation_clears_only_hooks (σ : Type)
    (sim : RebSim σ) :
    (rebx_remove_from_simulation sim).additional_forces = false ∧
    (rebx_remove_from_simulation sim).post_timestep_modifications = false ∧
    (rebx_remove_from_simulation sim).extras = sim.extras ∧
    (rebx_remove_from_simulation sim).particles = sim.particles ∧
    (rebx_remove_from_simulation sim).force_is_velocity_dependent
      = sim.force_is_velocity_dependent ∧
    (rebx_remove_from_simulation sim).errorReported = sim.errorReported :=
  ⟨rfl, rfl, rfl, rfl, rfl, rfl⟩

/-- C6 (counterexample): in this revision the builtin-name resolution chain
of `rebx_add` is commented out, so registering the recognized
velocity-dependent builtin name "gr" wires no callback and leaves the
velocity-dependence flag clear, and registering an unrecognized name reports
no error: the function silently returns an unwired effect. -/
theorem C6_counterexample_no_builtin_resolution :
    (rebx_add simU "gr").2.force = none ∧
    (rebx_add simU "gr").2.ptm = none ∧
    (rebx_add simU "gr").1.force_is_velocity_dependent = false ∧
    (rebx_add simU "some_unrecognized_effect").1.errorReported = false ∧
    (rebx_add simU "some_unrecognized_effect").2.force = none :=
  ⟨rfl, rfl, rfl, rfl, rfl⟩

/-- C6 (amended): `rebx_add` only allocates and prepends an effect with both
callbacks null for every name, recognized or not: no builtin-name
resolution, no velocity-dependence flagging and no error report happen in
this revision (the whole lookup chain is commented out). -/
theorem C6_add_registers_unwired_effect (σ : Type) (sim : RebSim σ)
    (name : String) :
    (rebx_add sim name).2.force = none ∧
    (rebx_add sim name).2.ptm = none ∧
    (rebx_add sim name).2.hash = reb_hash name ∧
    (rebx_add sim name).1.extras.effects
      = (rebx_add sim name).2 :: sim.extras.effects ∧
    (rebx_add sim name).1.force_is_velocity_dependent
      = sim.force_is_velocity_dependent ∧
    (rebx_add sim name).1.errorReported = sim.errorReported ∧
    (rebx_add sim name).1.extras.params_to_be_freed
      = sim.extras.params_to_be_freed :=
  ⟨rfl, rfl, rfl, rfl, rfl, rfl, rfl⟩

/-- C7 (code evaluated at the failing inputs): the retry logic of
`rebx_validate_ap_address` is off by one.  With five colliding allocations
followed by a valid sixth, the loop breaks at `i == 5` and the function
calls `exit(1)` even though a sentinel-free address was just obtained; with
all six allocations colliding, the loop ends with `i == 6`, the `i==5` test
fails, and the function falls through to return the out-of-bounds
`address[6]` instead of aborting.  (Within-budget successes and the
no-collision fast path behave as specified.) -/
theorem C7_validate_retry_off_by_one :
    (rebx_validate_ap_address 1 allocCollideThenOk).1
      = ValidateResult.fatalExit ∧
    (rebx_validate_ap_address 1 allocAllCollide).1
      = ValidateResult.oobGarbage ∧
    (rebx_validate_ap_address 1 allocRetryOk).1 = ValidateResult.ok 50 ∧
    (rebx_validate_ap_address 1000 allocAllCollide).1
      = ValidateResult.ok 1000 :=
  ⟨rfl, rfl, rfl, rfl⟩

/-- C3 (code evaluated at the failing input): `rebx_add_param_` never calls
`rebx_add_param_to_be_freed`, so after two successful scalar attaches the
allocation ledger `params_to_be_freed` is still empty and the teardown walk
`rebx_free_params` frees nothing: all six allocations (two nodes, two shape
arrays, two backing stores) remain live after teardown. -/
theorem C3_attach_never_recorded_leak :
    ∃ out1 out2 : AddParamOut,
      rebx_add_param (ObjStore.chain []) "td_c_real" RebxParamType.double
        alloc100 = CResult.ok out1 ∧
      rebx_add_param out1.store "td_c_imag" RebxParamType.double out1.alloc
        = CResult.ok out2 ∧
      extrasU.params_to_be_freed = [] ∧
      (rebx_free_params extrasU out2.alloc).live
        = [105, 104, 103, 102, 101, 100] := by
  exact ⟨_, _, rfl, rfl, rfl, rfl⟩

theorem removeScan_eq (h : Nat) (t : List RebxParam) :
    removeScan h t
      = (t.any (fun n => n.hash == h), t.eraseP (fun n => n.hash == h)) := by
  induction t with
  | nil => simp [removeScan]
  | cons n t ih =>
    cases hn : n.hash == h with
    | true => simp [removeScan, hn, List.eraseP_cons, List.any_cons]
    | false => simp [removeScan, hn, ih, List.eraseP_cons, List.any_cons]

theorem find?_eraseP_eq_none (l : List RebxParam) (h : Nat)
    (hnd : (l.map RebxParam.hash).Nodup) :
    (l.eraseP (fun n => n.hash == h)).find? (fun n => n.hash == h)
      = none := by
  induction l with
  | nil => simp
  | cons n t ih =>
    simp only [List.map_cons, List.nodup_cons] at hnd
    cases hn : n.hash == h with
    | true =>
      have hhash : n.hash = h := by simpa using hn
      simp only [List.eraseP_cons, hn, cond_true]
      rw [List.find?_eq_none]
      intro m hm
      simp only [beq_iff_eq]
      intro hmh
      have hmem : m.hash ∈ t.map RebxParam.hash :=
        List.mem_map_of_mem RebxParam.hash hm
      rw [hmh, ← hhash] at hmem
      exact hnd.1 hmem
    | false =>
      simp only [List.eraseP_cons, hn, cond_false]
      simp [List.find?, hn, ih hnd.2]

theorem computeSize_eq_prod (sh : List Nat) : computeSize sh = sh.prod := by
  rw [List.prod_eq_foldl]
  rfl

/-- C5 (counterexample): on an empty store, `rebx_remove_param` does not
return 0 leaving the store unchanged as claimed: it dereferences the null
head pointer (`current->hash` with `current == NULL`), which is undefined
behaviour. -/
theorem C5_counterexample_remove_on_empty_store :
    rebx_remove_param (ObjStore.chain []) "td_EB0" = CResult.ub ∧
    rebx_remove_param (ObjStore.chain []) "td_EB0"
      ≠ CResult.ok (false, ObjStore.chain []) :=
  ⟨rfl, by decide⟩

/-- C5 (amended): on a NON-EMPTY store, `rebx_remove_param` unlinks the
first node whose hash matches (head or interior) and returns 1, after which
lookup returns the NULL sentinel (given the store's hash-uniqueness
invariant), and it returns 0 leaving the store unchanged when no hash
matches; on an empty store the original claim fails because the code
dereferences the null head (see the counterexample). -/
theorem C5_remove_semantics_on_nonempty_store (l : List RebxParam)
    (name : String) (hne : l ≠ [])
    (hnd : (l.map RebxParam.hash).Nodup) :
    rebx_remove_param (ObjStore.chain l) name
      = CResult.ok (l.any (fun n => n.hash == reb_hash name),
          ObjStore.chain (l.eraseP (fun n => n.hash == reb_hash name))) ∧
    (l.any (fun n => n.hash == reb_hash name) = true →
      rebx_get_param
          (ObjStore.chain (l.eraseP (fun n => n.hash == reb_hash name)))
          name
        = CResult.ok none) := by
  constructor
  · cases l with
    | nil => exact absurd rfl hne
    | cons n t =>
      cases hn : n.hash == reb_hash name with
      | true => simp [rebx_remove_param, hn, List.eraseP_cons, List.any_cons]
      | false =>
        simp [rebx_remove_param, hn, removeScan_eq, List.eraseP_cons,
          List.any_cons]
  · intro hany
    have hfind := find?_eraseP_eq_none l (reb_hash name) hnd
    simp [rebx_get_param, rebx_get_param_node, hfind]

/-- C5 (witness): removing the single parameter "c" from a one-node store
succeeds, returns 1, and the subsequent lookup reports NULL. -/
theorem C5_witness :
    rebx_remove_param (ObjStore.chain [paramNode100]) "c"
      = CResult.ok
          ([paramNode100].any (fun n => n.hash == reb_hash "c"),
            ObjStore.chain
              ([paramNode100].eraseP (fun n => n.hash == reb_hash "c"))) ∧
    ([paramNode100].any (fun n => n.hash == reb_hash "c") = true →
      rebx_get_param
          (ObjStore.chain
            ([paramNode100].eraseP (fun n => n.hash == reb_hash "c"))) "c"
        = CResult.ok none) :=
  C5_remove_semantics_on_nonempty_store [paramNode100] "c" (by decide)
    (by decide)

/-- C10: `rebx_remove_param` reads the head node's hash with no null check:
on an object with no attached parameter (empty chain, or a fresh effect
whose slot holds the sentinel word) it dereferences an invalid pointer, and
it is total exactly under the precondition of a non-empty store, where the
head test and the interior scan stay within the store's own nodes (the
resulting chain is a sublist of the original). -/
theorem C10_remove_total_only_on_nonempty :
    (∀ name : String,
      rebx_remove_param (ObjStore.chain []) name = CResult.ub) ∧
    (∀ name : String,
      rebx_remove_param ObjStore.sentinelEffect name = CResult.ub) ∧
    (∀ (name : String) (l : List RebxParam), l ≠ [] →
      ∃ b l2,
        rebx_remove_param (ObjStore.chain l) name
          = CResult.ok (b, ObjStore.chain l2) ∧ l2.Sublist l) := by
  refine ⟨fun _ => rfl, fun _ => rfl, ?_⟩
  intro name l hne
  cases l with
  | nil => exact absurd rfl hne
  | cons n t =>
    cases hn : n.hash == reb_hash name with
    | true =>
      exact ⟨true, t, by simp [rebx_remove_param, hn],
        List.sublist_cons_self n t⟩
    | false =>
      refine ⟨(removeScan (reb_hash name) t).1,
        n :: (removeScan (reb_hash name) t).2,
        by simp [rebx_remove_param, hn], ?_⟩
      simp only [removeScan_eq]
      exact List.Sublist.cons₂ n (List.eraseP_sublist t)

/-- C10 (witness): removal on a concrete one-node store is total and the
resulting chain stays within the original nodes. -/
theorem C10_witness :
    ∃ b l2,
      rebx_remove_param (ObjStore.chain [paramNode100]) "absent_name"
        = CResult.ok (b, ObjStore.chain l2) ∧ l2.Sublist [paramNode100] :=
  C10_remove_total_only_on_nonempty.2.2 "absent_name" [paramNode100]
    (by decide)

/-- C2 (counterexample): an effect fresh from the registry is classified as
Effect, but the claimed stability under parameter attachment fails: the
attach call on a fresh effect dereferences the sentinel word during its
duplicate check (undefined behaviour), and any state in which a genuine
parameter node heads the effect's slot is classified as Particle, not
Effect. -/
theorem C2_counterexample_kind_not_stable :
    rebx_get_object_type (rebx_add_effect extrasU "c").2.store
      = RebxObjectType.effect ∧
    rebx_add_param_ (rebx_add_effect extrasU "c").2.store "c"
      RebxParamType.double [1] alloc100 = CResult.ub ∧
    rebx_get_object_type (ObjStore.chain [paramNode100])
      = RebxObjectType.particle :=
  ⟨rfl, rfl, by decide⟩

/-- C2 (amended): the discriminator classifies an effect as Effect exactly
while its `ap` slot still holds the sentinel, i.e. before any parameter has
been attached.  Attaching a parameter to a fresh effect is itself undefined
(the duplicate check walks the sentinel word as a node pointer), and once a
genuine node (whose address the validator guarantees collides with no
sentinel word) heads the slot, the discriminator reports Particle. -/
theorem C2_kind_effect_only_before_attachment (σ : Type)
    (ex : RebxExtras σ) (name pname : String) (ty : RebxParamType)
    (sh : List Nat) (al : AllocState) :
    rebx_get_object_type (rebx_add_effect ex name).2.store
      = RebxObjectType.effect ∧
    rebx_add_param_ (rebx_add_effect ex name).2.store pname ty sh al
      = CResult.ub ∧
    (∀ (n : RebxParam) (l : List RebxParam), collides n.addr = false →
      rebx_get_object_type (ObjStore.chain (n :: l))
        = RebxObjectType.particle) := by
  refine ⟨rfl, rfl, ?_⟩
  intro n l hc
  have hb := beq_effect_eq_false_of_not_collides n.addr hc
  simp [rebx_get_object_type, slotWord, hb]

/-- C2 (witness): instantiation at a concrete effect "q" and a concrete
non-sentinel node address 300. -/
theorem C2_witness :
    rebx_get_object_type (rebx_add_effect extrasU "q").2.store
      = RebxObjectType.effect ∧
    rebx_add_param_ (rebx_add_effect extrasU "q").2.store "p"
      RebxParamType.int [2] alloc10 = CResult.ub ∧
    rebx_get_object_type (ObjStore.chain [paramNode300])
      = RebxObjectType.particle := by
  obtain ⟨h1, h2, h3⟩ := C2_kind_effect_only_before_attachment Unit extrasU
    "q" "p" RebxParamType.int [2] alloc10
  exact ⟨h1, h2, h3 paramNode300 [] (by decide)⟩

theorem add_param_fresh_eq (l : List RebxParam) (name : String)
    (ty : RebxParamType) (sh : List Nat) (al : AllocState)
    (hfind : l.find? (fun n => n.hash == reb_hash name) = none)
    (hc : collides (al.stream al.idx) = false) :
    rebx_add_param_ (ObjStore.chain l) name ty sh al
      = CResult.ok (attachedOut l name ty sh al) := by
  simp [rebx_add_param_, rebx_get_param, rebx_get_param_node, hfind,
    rebx_add_param_create, rebx_validate_ap_address, malloc, hc,
    attachedOut, attachedAlloc, mkNode]

theorem add_param_dup_eq (l : List RebxParam) (name : String)
    (ty : RebxParamType) (sh : List Nat) (al : AllocState) (n : RebxParam)
    (hfind : l.find? (fun m => m.hash == reb_hash name) = some n)
    (hnz : n.contentsAddr ≠ 0) :
    rebx_add_param_ (ObjStore.chain l) name ty sh al
      = CResult.ok
          { ret := none, errorReported := true, store := ObjStore.chain l,
            alloc := al } := by
  simp [rebx_add_param_, rebx_get_param, rebx_get_param_node, hfind, hnz]

/-- C4: for every object with a genuine store and fresh allocator, after a
first attach of name N succeeds, a second attach of N to the same object
fails: it reports the error through the host diagnostic channel
(`reb_error`), returns NULL, and leaves the store unchanged — the original
node and its storage handle remain retrievable by lookup. -/
theorem C4_second_attach_of_same_name_fails (l : List RebxParam)
    (name : String) (ty ty2 : RebxParamType) (sh sh2 : List Nat)
    (al al2 : AllocState)
    (hfresh : ∀ n ∈ l, n.hash ≠ reb_hash name)
    (hst : ∀ i, 2 < al.stream i) :
    ∃ out node,
      rebx_add_param_ (ObjStore.chain l) name ty sh al = CResult.ok out ∧
      out.store = ObjStore.chain (node :: l) ∧
      out.ret = some node.contentsAddr ∧
      node.hash = reb_hash name ∧
      rebx_add_param_ out.store name ty2 sh2 al2
        = CResult.ok
            { ret := none, errorReported := true, store := out.store,
              alloc := al2 } ∧
      rebx_get_param out.store name
        = CResult.ok (some node.contentsAddr) := by
  have hfind := find?_hash_eq_none l (reb_hash name) hfresh
  have hc := collides_eq_false_of_gt (al.stream al.idx) (hst al.idx)
  have h1 := add_param_fresh_eq l name ty sh al hfind hc
  have hfind2 : (mkNode name ty sh al :: l).find?
      (fun m => m.hash == reb_hash name) = some (mkNode name ty sh al) := by
    simp [List.find?_cons, mkNode]
  have hnz : (mkNode name ty sh al).contentsAddr ≠ 0 := by
    have := hst (al.idx + 1 + 1)
    simp only [mkNode]
    omega
  refine ⟨attachedOut l name ty sh al, mkNode name ty sh al, h1, rfl, rfl,
    rfl, ?_, ?_⟩
  · have h2 := add_param_dup_eq (mkNode name ty sh al :: l) name ty2 sh2 al2
      (mkNode name ty sh al) hfind2 hnz
    simpa [attachedOut] using h2
  · simp [rebx_get_param, rebx_get_param_node, attachedOut, hfind2]

/-- C4 (witness): concrete instantiation on an empty particle store with the
allocator handing out addresses 10, 11, 12, .... -/
theorem C4_witness :
    ∃ out node,
      rebx_add_param_ (ObjStore.chain []) "c" RebxParamType.double [1]
        alloc10 = CResult.ok out ∧
      out.store = ObjStore.chain (node :: []) ∧
      out.ret = some node.contentsAddr ∧
      node.hash = reb_hash "c" ∧
      rebx_add_param_ out.store "c" RebxParamType.int [2] alloc100
        = CResult.ok
            { ret := none, errorReported := true, store := out.store,
              alloc := alloc100 } ∧
      rebx_get_param out.store "c"
        = CResult.ok (some node.contentsAddr) := by
  refine C4_second_attach_of_same_name_fails [] "c" RebxParamType.double
    RebxParamType.int [1] [2] alloc10 alloc100 ?_ ?_
  · intro n hn
    cases hn
  · intro i
    show 2 < i + 10
    omega

/-- C8: attaching a fresh (name, kind, shape) allocates backing storage
whose element count is the product of the shape's extents and whose byte
length is that count times the element size of the kind; writing values
through the returned handle and then looking the name up on the same object
yields the same storage, now holding exactly those values. -/
theorem C8_attach_shape_and_roundtrip (l : List RebxParam) (name : String)
    (ty : RebxParamType) (sh : List Nat) (vals : List Nat) (al : AllocState)
    (hfresh : ∀ n ∈ l, n.hash ≠ reb_hash name)
    (hst : ∀ i, 2 < al.stream i)
    (hlen : vals.length = computeSize sh) :
    ∃ out node node2,
      rebx_add_param_ (ObjStore.chain l) name ty sh al = CResult.ok out ∧
      out.store = ObjStore.chain (node :: l) ∧
      out.ret = some node.contentsAddr ∧
      node.size = sh.prod ∧
      node.contents.length = sh.prod ∧
      node.contentsBytes = sh.prod * sizeofElem ty ∧
      rebx_get_param_node
          (writeThroughHandle out.store node.contentsAddr vals) name
        = CResult.ok (some node2) ∧
      node2.contentsAddr = node.contentsAddr ∧
      node2.contents = vals ∧
      node2.contents.length = sh.prod := by
  have hfind := find?_hash_eq_none l (reb_hash name) hfresh
  have hc := collides_eq_false_of_gt (al.stream al.idx) (hst al.idx)
  have h1 := add_param_fresh_eq l name ty sh al hfind hc
  refine ⟨attachedOut l name ty sh al, mkNode name ty sh al,
    { mkNode name ty sh al with contents := vals }, h1, rfl, rfl, ?_, ?_,
    ?_, ?_, rfl, rfl, ?_⟩
  · simpa [mkNode] using computeSize_eq_prod sh
  · simp [mkNode, computeSize_eq_prod]
  · simp [mkNode, computeSize_eq_prod]
  · simp [rebx_get_param_node, writeThroughHandle, attachedOut,
      List.find?_cons, mkNode]
  · rw [hlen]
    exact computeSize_eq_prod sh

/-- C8 (witness): a 2x3 double array named "td_EB0" attached to an empty
store, populated with six values and read back. -/
theorem C8_witness :
    ∃ out node node2,
      rebx_add_param_ (ObjStore.chain []) "td_EB0" RebxParamType.double
        [2, 3] alloc10 = CResult.ok out ∧
      out.store = ObjStore.chain (node :: []) ∧
      out.ret = some node.contentsAddr ∧
      node.size = ([2, 3] : List Nat).prod ∧
      node.contents.length = ([2, 3] : List Nat).prod ∧
      node.contentsBytes
        = ([2, 3] : List Nat).prod * sizeofElem RebxParamType.double ∧
      rebx_get_param_node
          (writeThroughHandle out.store node.contentsAddr
            [4, 5, 6, 7, 8, 9]) "td_EB0"
        = CResult.ok (some node2) ∧
      node2.contentsAddr = node.contentsAddr ∧
      node2.contents = [4, 5, 6, 7, 8, 9] ∧
      node2.contents.length = ([2, 3] : List Nat).prod := by
  refine C8_attach_shape_and_roundtrip [] "td_EB0" RebxParamType.double
    [2, 3] [4, 5, 6, 7, 8, 9] alloc10 ?_ ?_ ?_
  · intro n hn
    cases hn
  · intro i
    show 2 < i + 10
    omega
  · decide
